import Mathlib

/-!
Verification of the lead-collection flow of the embeddable chat widget
(`static/widget.js`).  The widget state (`leadCollectionMode`, `leadData`,
`conversationHistory`) and the methods `sendMessage`, `handleLeadInput`,
`submitLead` and `isValidEmail` are embedded as pure Lean functions.  The
outcomes of the two network calls (`POST /api/chat`, `POST /api/lead`) are
passed in explicitly (`ChatOutcome`, `LeadOutcome`); the requests the code
would issue and the bot messages it would display are returned as a list of
`WAction`s.  DOM rendering, the typing indicator and `setTimeout` delays are
display-only in the source and are not modelled (a delayed contact-info
message is returned as an ordinary trailing `WAction.botMessage`).
-/

/-- Characters matched by the JavaScript regex class `\s` (WhiteSpace and
LineTerminator code points). -/
def isJsWhitespace (c : Char) : Bool :=
  c == ' ' || c == '\t' || c == '\n' || c == '\r' || c == '\x0b' || c == '\x0c' ||
  c == '\u00a0' || c == '\u1680' || ('\u2000' ≤ c && c ≤ '\u200a') ||
  c == '\u2028' || c == '\u2029' || c == '\u202f' || c == '\u205f' ||
  c == '\u3000' || c == '\ufeff'

/-- JavaScript `String.prototype.trim`: strip leading and trailing `\s`
characters. -/
def jsTrim (s : String) : String :=
  String.mk (((s.toList.dropWhile isJsWhitespace).reverse.dropWhile isJsWhitespace).reverse)

/-- Character-by-character lower-casing (`String.toLowerCase`), expressed
over the character list.  `Char.toLower` maps the basic latin range, which
covers every token and indicator the widget compares against. -/
def jsToLower (s : String) : String := String.mk (s.toList.map Char.toLower)

/-- The normalisation `message.toLowerCase().trim()` performed at the top of
`handleLeadInput` (widget.js:218). -/
def normLower (s : String) : String := jsTrim (jsToLower s)

/-- JavaScript `hay.includes(needle)`: `needle` occurs as a contiguous
substring of `hay`. -/
def listIncludes (needle : List Char) : List Char → Bool
  | [] => needle.isPrefixOf ([] : List Char)
  | c :: t => needle.isPrefixOf (c :: t) || listIncludes needle t

/-- String version of `listIncludes`. -/
def strIncludes (hay needle : String) : Bool :=
  listIncludes needle.toList hay.toList

/-- Characters matched by the regex class `[^\s@]`. -/
def isEmailChar (c : Char) : Bool := !isJsWhitespace c && c != '@'

/-- Split a list at the first occurrence of `c`, returning the parts before
and after it, or `none` when `c` does not occur. -/
def splitFirst (c : Char) : List Char → Option (List Char × List Char)
  | [] => none
  | x :: t =>
    if x == c then some ([], t)
    else (splitFirst c t).map (fun p => (x :: p.1, p.2))

/-- The domain side of the email regex, `[^\s@]+\.[^\s@]+`: a dot must occur
at some position `i` with a non-empty run of class characters on both sides,
i.e. `1 ≤ i ≤ length - 2`.  (`.` itself is in the class `[^\s@]`, so the runs
on either side may contain further dots.) -/
def domainHasInnerDot (d : List Char) : Bool :=
  ((d.drop 1).dropLast).contains '.'

/-- `isValidEmail` (widget.js:386-389): the regex
`^[^\s@]+@[^\s@]+\.[^\s@]+$`.  Every character class excludes `@`, so a match
contains exactly one `@`; splitting at the first `@`, the regex holds iff the
local part is a non-empty run of `[^\s@]` characters and the remainder is a
run of `[^\s@]` characters (in particular `@`-free) containing a dot that is
neither its first nor its last character. -/
def isValidEmail (s : String) : Bool :=
  match splitFirst '@' s.toList with
  | none => false
  | some (lp, dom) =>
    !lp.isEmpty && lp.all isEmailChar && dom.all isEmailChar && domainHasInnerDot dom

/-- Message roles in `conversationHistory`. -/
inductive Role
  | user
  | bot
deriving DecidableEq

/-- An entry of `conversationHistory`. -/
structure ChatMsg where
  role : Role
  content : String
deriving DecidableEq

/-- The widget's `leadData` object.  `none` models an absent property; the
source tests presence with JavaScript truthiness, so a stored empty string
also counts as unset (see `truthy`). -/
structure LeadData where
  name : Option String := none
  email : Option String := none
  phone : Option String := none
  company : Option String := none
  message : Option String := none
deriving DecidableEq

/-- JavaScript truthiness of an optional string property: `undefined` and the
empty string are falsy, every other string is truthy. -/
def truthy : Option String → Bool
  | none => false
  | some s => !s.isEmpty

/-- The widget state touched by the lead-collection flow. -/
structure WidgetState where
  leadCollectionMode : Bool := false
  leadData : LeadData := {}
  conversationHistory : List ChatMsg := []
deriving DecidableEq

/-- Body of the `POST /api/lead` request (widget.js:343-352).  `client_id`
and `source_url` are configuration constants orthogonal to the flow and are
omitted. -/
structure LeadPayload where
  name : Option String
  email : Option String
  phone : String
  company : String
  message : String
  conversation_snippet : String
deriving DecidableEq

/-- Observable effects of one input: a bot message displayed, a
`POST /api/chat` request, or a `POST /api/lead` request. -/
inductive WAction
  | botMessage (text : String)
  | chatRequest (message : String) (history : List ChatMsg)
  | leadRequest (payload : LeadPayload)
deriving DecidableEq

/-- Decoded `POST /api/chat` response body (widget.js:196-203). -/
structure ChatResp where
  success : Bool
  response : String
  trigger_lead_collection : Bool
  extracted_email : Option String
deriving DecidableEq

/-- Outcome of a `POST /api/chat` call: a thrown transport error or a decoded
response. -/
inductive ChatOutcome
  | err
  | ok (r : ChatResp)
deriving DecidableEq

/-- Decoded `POST /api/lead` response body (widget.js:359-363). -/
structure LeadResp where
  success : Bool
  message : String
  contact_info : Option (String × String)
deriving DecidableEq

/-- Outcome of a `POST /api/lead` call. -/
inductive LeadOutcome
  | err
  | ok (r : LeadResp)
deriving DecidableEq

/-- The cancellation-token test at widget.js:221. -/
def isCancelToken (s : String) : Bool :=
  s == "cancel" || s == "nevermind" || s == "skip" || s == "back"

/-- `questionIndicators` (widget.js:229). -/
def questionIndicators : List String :=
  ["what", "how", "when", "where", "why", "who", "can", "do you", "tell me", "?"]

/-- The `isQuestion` test at widget.js:230. -/
def containsQuestionIndicator (s : String) : Bool :=
  questionIndicators.any (fun ind => strIncludes s ind)

/-- Cancellation acknowledgment (widget.js:224). -/
def cancelMsg : String :=
  "No problem! Lead collection cancelled. Feel free to ask me any questions about our services!"

/-- Generic error message (widget.js:205 and widget.js:269). -/
def genericErrMsg : String := "Sorry, something went wrong. Please try again."

/-- Transport-error message of the normal chat path (widget.js:210). -/
def connectErrMsg : String := "Sorry, I\x27m having trouble connecting. Please try again."

/-- Prompt after the name when an email is already present (widget.js:279). -/
def phonePromptPrefilled : String :=
  "Great! And your phone number? (Type \x27skip\x27 if you\x27d prefer not to share)"

/-- Prompt after the name (widget.js:281). -/
def emailPrompt : String := "Thanks! What\x27s your email address?"

/-- Prompt after a valid email (widget.js:290). -/
def phonePrompt : String := "Perfect! And your phone number? (Type \x27skip\x27 to leave blank)"

/-- Re-prompt after an invalid email (widget.js:292). -/
def emailInvalidMsg : String :=
  "That doesn\x27t look like a valid email. Can you try again? (Or type \x27cancel\x27 to go back to chatting)"

/-- Prompt after a skipped phone (widget.js:301). -/
def companyPromptAfterSkip : String :=
  "No worries! What company do you represent? (Type \x27skip\x27 to leave blank)"

/-- Prompt after a stored phone (widget.js:304). -/
def companyPrompt : String :=
  "Thanks! What company do you represent? (Type \x27skip\x27 to leave blank)"

/-- Prompt after a skipped company (widget.js:313). -/
def messagePromptAfterSkip : String :=
  "Got it! Anything else you\x27d like to tell us? (Or type \x27skip\x27 to finish)"

/-- Prompt after a stored company (widget.js:316). -/
def messagePrompt : String :=
  "Excellent! Anything else you\x27d like to tell us? (Or type \x27skip\x27 to finish)"

/-- Rejected-submission message (widget.js:374). -/
def submitRejectedMsg : String :=
  "Sorry, there was an error saving your information. Please try again or email us directly."

/-- Transport-error message of the submission path (widget.js:379). -/
def submitTransportErrMsg : String :=
  "Sorry, something went wrong. Please try emailing us directly."

/-- Contact-info follow-up message (widget.js:365). -/
def contactInfoMsg (email phone : String) : String :=
  "You can also reach us at:\n📧 " ++ email ++ "\n📞 " ++ phone

/-- The last `n` entries of a list (`Array.prototype.slice(-n)` on a list at
least as long; `slice(-n)` of a shorter list is the whole list, as here). -/
def lastN (n : Nat) (l : List ChatMsg) : List ChatMsg :=
  l.drop (l.length - n)

/-- The `POST /api/lead` body built at widget.js:343-352: skipped or absent
phone/company normalise to the empty string, `message` defaults to the empty
string, and the snippet joins the contents of the last five history entries
with a separator. -/
def leadPayload (st : WidgetState) : LeadPayload :=
  { name := st.leadData.name
    email := st.leadData.email
    phone :=
      if truthy st.leadData.phone && st.leadData.phone != some "skipped" then
        st.leadData.phone.getD ""
      else ""
    company :=
      if truthy st.leadData.company && st.leadData.company != some "skipped" then
        st.leadData.company.getD ""
      else ""
    message := if truthy st.leadData.message then st.leadData.message.getD "" else ""
    conversation_snippet :=
      String.intercalate " | " ((lastN 5 st.conversationHistory).map (fun mm => mm.content)) }

/-- `submitLead` (widget.js:334-381).  On success the session deactivates and
`leadData` clears (widget.js:371-372), with an optional contact-info
follow-up message; on a `success:false` response or a transport error the
source only displays an apology — it does NOT reset `leadCollectionMode` or
`leadData`. -/
def submitLead (st : WidgetState) (lead : LeadOutcome) : WidgetState × List WAction :=
  match lead with
  | LeadOutcome.err =>
    (st, [WAction.leadRequest (leadPayload st), WAction.botMessage submitTransportErrMsg])
  | LeadOutcome.ok r =>
    if r.success then
      ({ st with leadCollectionMode := false, leadData := {} },
        [WAction.leadRequest (leadPayload st), WAction.botMessage r.message] ++
          (match r.contact_info with
           | some ci => [WAction.botMessage (contactInfoMsg ci.1 ci.2)]
           | none => []))
    else
      (st, [WAction.leadRequest (leadPayload st), WAction.botMessage submitRejectedMsg])

/-- Modelled from the spec: `startLeadCollection(prefilledEmail?)` is invoked
at widget.js:199 and widget.js:261 but its definition is not among the source
files under `src/`.  Per spec §6 it activates the session, and per the spec's
pre-population requirement (§4.1) it accepts a pre-filled `email` value
extracted by the triggering chat turn; all other fields start unset. -/
def startLeadCollection (st : WidgetState) (prefilledEmail : Option String) : WidgetState :=
  { st with leadCollectionMode := true, leadData := { email := prefilledEmail } }

/-- `handleLeadInput` (widget.js:217-329).  Checks run in source order:
cancellation tokens (line 221) fire at every step before any step dispatch;
the question-abort (lines 229-272) fires only while `name` is unset and
pushes the user message to the history again before forwarding it; then the
step dispatch keys on which `leadData` properties are truthy (name 275,
email 287, phone 298, company 310, final message and submission 321-328). -/
def handleLeadInput (st : WidgetState) (message : String)
    (chat : ChatOutcome) (lead : LeadOutcome) : WidgetState × List WAction :=
  if isCancelToken (normLower message) then
    ({ st with leadCollectionMode := false, leadData := {} }, [WAction.botMessage cancelMsg])
  else if containsQuestionIndicator (normLower message) && !truthy st.leadData.name then
    match chat with
    | ChatOutcome.err =>
      ({ st with
          leadCollectionMode := false
          leadData := {}
          conversationHistory := st.conversationHistory ++ [ChatMsg.mk Role.user message] },
        [WAction.chatRequest message (st.conversationHistory ++ [ChatMsg.mk Role.user message]),
         WAction.botMessage genericErrMsg])
    | ChatOutcome.ok r =>
      if r.success then
        if r.trigger_lead_collection then
          (startLeadCollection
              { st with
                  leadCollectionMode := false
                  leadData := {}
                  conversationHistory := st.conversationHistory ++ [ChatMsg.mk Role.user message] }
              r.extracted_email,
            [WAction.chatRequest message (st.conversationHistory ++ [ChatMsg.mk Role.user message])])
        else
          ({ st with
              leadCollectionMode := false
              leadData := {}
              conversationHistory := st.conversationHistory ++
                [ChatMsg.mk Role.user message, ChatMsg.mk Role.bot r.response] },
            [WAction.chatRequest message (st.conversationHistory ++ [ChatMsg.mk Role.user message]),
             WAction.botMessage r.response])
      else
        ({ st with
            leadCollectionMode := false
            leadData := {}
            conversationHistory := st.conversationHistory ++ [ChatMsg.mk Role.user message] },
          [WAction.chatRequest message (st.conversationHistory ++ [ChatMsg.mk Role.user message])])
  else if !truthy st.leadData.name then
    if truthy st.leadData.email then
      ({ st with leadData := { st.leadData with name := some message } },
        [WAction.botMessage phonePromptPrefilled])
    else
      ({ st with leadData := { st.leadData with name := some message } },
        [WAction.botMessage emailPrompt])
  else if !truthy st.leadData.email then
    if isValidEmail message then
      ({ st with leadData := { st.leadData with email := some message } },
        [WAction.botMessage phonePrompt])
    else
      (st, [WAction.botMessage emailInvalidMsg])
  else if !truthy st.leadData.phone && st.leadData.phone != some "skipped" then
    if normLower message == "skip" then
      ({ st with leadData := { st.leadData with phone := some "skipped" } },
        [WAction.botMessage companyPromptAfterSkip])
    else
      ({ st with leadData := { st.leadData with phone := some message } },
        [WAction.botMessage companyPrompt])
  else if !truthy st.leadData.company && st.leadData.company != some "skipped" then
    if normLower message == "skip" then
      ({ st with leadData := { st.leadData with company := some "skipped" } },
        [WAction.botMessage messagePromptAfterSkip])
    else
      ({ st with leadData := { st.leadData with company := some message } },
        [WAction.botMessage messagePrompt])
  else
    submitLead
      { st with leadData :=
          { st.leadData with
              message := some (if normLower message == "skip" then "" else message) } }
      lead

/-- `sendMessage` (widget.js:154-212): trim the raw input, drop it when
empty, push it to the history, then either route to `handleLeadInput` (when
`leadCollectionMode` is set) or issue a `POST /api/chat`, triggering lead
collection, displaying the response, or apologising per the outcome. -/
def sendMessage (st : WidgetState) (raw : String)
    (chat : ChatOutcome) (lead : LeadOutcome) : WidgetState × List WAction :=
  if jsTrim raw == "" then (st, [])
  else if st.leadCollectionMode then
    handleLeadInput
      { st with conversationHistory :=
          st.conversationHistory ++ [ChatMsg.mk Role.user (jsTrim raw)] }
      (jsTrim raw) chat lead
  else
    match chat with
    | ChatOutcome.err =>
      ({ st with conversationHistory :=
           st.conversationHistory ++ [ChatMsg.mk Role.user (jsTrim raw)] },
        [WAction.chatRequest (jsTrim raw)
           (st.conversationHistory ++ [ChatMsg.mk Role.user (jsTrim raw)]),
         WAction.botMessage connectErrMsg])
    | ChatOutcome.ok r =>
      if r.success then
        if r.trigger_lead_collection then
          (startLeadCollection
              { st with conversationHistory :=
                  st.conversationHistory ++ [ChatMsg.mk Role.user (jsTrim raw)] }
              r.extracted_email,
            [WAction.chatRequest (jsTrim raw)
               (st.conversationHistory ++ [ChatMsg.mk Role.user (jsTrim raw)])])
        else
          ({ st with conversationHistory :=
               st.conversationHistory ++
                 [ChatMsg.mk Role.user (jsTrim raw), ChatMsg.mk Role.bot r.response] },
            [WAction.chatRequest (jsTrim raw)
               (st.conversationHistory ++ [ChatMsg.mk Role.user (jsTrim raw)]),
             WAction.botMessage r.response])
      else
        ({ st with conversationHistory :=
             st.conversationHistory ++ [ChatMsg.mk Role.user (jsTrim raw)] },
          [WAction.chatRequest (jsTrim raw)
             (st.conversationHistory ++ [ChatMsg.mk Role.user (jsTrim raw)]),
           WAction.botMessage genericErrMsg])

/-- Feed a sequence of raw user inputs through `sendMessage`, with fixed
network outcomes, concatenating the emitted actions. -/
def runInputs (st : WidgetState) (inputs : List String)
    (chat : ChatOutcome) (lead : LeadOutcome) : WidgetState × List WAction :=
  inputs.foldl
    (fun acc msg =>
      ((sendMessage acc.1 msg chat lead).1, acc.2 ++ (sendMessage acc.1 msg chat lead).2))
    (st, [])

/-- Recogniser for `POST /api/lead` actions. -/
def isLeadRequest : WAction → Bool
  | WAction.leadRequest _ => true
  | _ => false

/-- A freshly activated session: lead-collection mode on, no fields, empty
history. -/
def freshActive : WidgetState :=
  { leadCollectionMode := true
    leadData := {}
    conversationHistory := [] }

/-- An active session at the email step: the name has been collected. -/
def emailStepState : WidgetState :=
  { leadCollectionMode := true
    leadData := { name := some "Jane Doe" }
    conversationHistory := [] }

/-- An active session at the phone step: name and email collected. -/
def phoneStepState : WidgetState :=
  { leadCollectionMode := true
    leadData := { name := some "Jane Doe", email := some "jane@x.com" }
    conversationHistory := [] }

/-- An active session at the final message step: all earlier fields
collected. -/
def msgStepState : WidgetState :=
  { leadCollectionMode := true
    leadData := { name := some "Jane Doe", email := some "jane@x.com", phone := some "555", company := some "Acme" }
    conversationHistory := [] }

/-- A successful, non-triggering chat response. -/
def chatOkPlain : ChatOutcome :=
  ChatOutcome.ok { success := true, response := "ok", trigger_lead_collection := false, extracted_email := none }

/-- A chat response with `success:false`. -/
def chatRejected : ChatOutcome :=
  ChatOutcome.ok { success := false, response := "", trigger_lead_collection := false, extracted_email := none }

/-- A successful lead-submission response. -/
def leadOkPlain : LeadOutcome :=
  LeadOutcome.ok { success := true, message := "thanks", contact_info := none }

/-- A lead-submission response with `success:false`. -/
def leadRejected : LeadOutcome :=
  LeadOutcome.ok { success := false, message := "", contact_info := none }

/-- The input sequence of the spec's Scenario A. -/
def scenarioAInputs : List String := ["Jane Doe", "jane@x.com", "skip", "Acme", "skip"]

/-- A lead-submission outcome that counts as a failure: a transport error or
a `success:false` response. -/
def leadFails : LeadOutcome → Bool
  | LeadOutcome.err => true
  | LeadOutcome.ok r => !r.success

/-- The apology the source displays for each kind of submission failure. -/
def leadFailMsg : LeadOutcome → String
  | LeadOutcome.err => submitTransportErrMsg
  | LeadOutcome.ok _ => submitRejectedMsg

/-- Whether a chat outcome re-triggers lead collection
(`success && trigger_lead_collection`). -/
def chatTriggers : ChatOutcome → Bool
  | ChatOutcome.err => false
  | ChatOutcome.ok r => r.success && r.trigger_lead_collection

/-- The `extracted_email` carried by a chat outcome. -/
def chatPrefill : ChatOutcome → Option String
  | ChatOutcome.err => none
  | ChatOutcome.ok r => r.extracted_email

/-- The phone field counts as captured once it holds a truthy value or the
skip sentinel — exactly the negation of the guard at widget.js:298. -/
def capturedPhone (d : LeadData) : Bool :=
  truthy d.phone || d.phone == some "skipped"

/-- The company field counts as captured once it holds a truthy value or the
skip sentinel — exactly the negation of the guard at widget.js:310. -/
def capturedCompany (d : LeadData) : Bool :=
  truthy d.company || d.company == some "skipped"

/-- Fields captured so far form a prefix of the fixed order
name → email → phone → company → message, so at most one field is in
progress (the first uncaptured one). -/
def orderedFields (d : LeadData) : Prop :=
  (truthy d.email = true → truthy d.name = true) ∧
  (capturedPhone d = true → truthy d.email = true) ∧
  (capturedCompany d = true → capturedPhone d = true) ∧
  (d.message ≠ none → capturedCompany d = true)

/-- The deactivated, cleared state the question-abort path installs before
issuing its forward (widget.js:234-238). -/
def abortedState (st : WidgetState) (m : String) : WidgetState :=
  { st with
      leadCollectionMode := false
      leadData := {}
      conversationHistory := st.conversationHistory ++ [ChatMsg.mk Role.user m] }

/-- The state left behind by a rejected submission at the message step. -/
def failedSubmitState : WidgetState :=
  (handleLeadInput msgStepState "hello" ChatOutcome.err leadRejected).1

/-- A `leadData` as installed by a full session reset: every field is absent
except possibly a pre-filled email left by a lead-collection re-trigger
(`startLeadCollection` with an extracted email). -/
def resetLike (d : LeadData) : Prop :=
  d.name = none ∧ d.phone = none ∧ d.company = none ∧ d.message = none

/-- A session shape awaiting the name: nothing captured beyond a possibly
pre-filled email.  Every freshly activated session (with or without a
pre-filled email) has this shape. -/
def awaitingName (d : LeadData) : Prop :=
  truthy d.name = false ∧ capturedPhone d = false ∧ capturedCompany d = false ∧
    d.message = none

/-- The state-shape invariant `handleLeadInput` preserves: captured fields
form a prefix of the order name → email → phone → company → message, or the
session was just (re)activated and holds at most a pre-filled email while
awaiting the name. -/
def leadInvariant (d : LeadData) : Prop :=
  orderedFields d ∨ awaitingName d

/-- A successful chat response that re-triggers lead collection with an
extracted email. -/
def chatTriggerPrefill : ChatOutcome :=
  ChatOutcome.ok
    { success := true, response := "", trigger_lead_collection := true,
      extracted_email := some "jane@x.com" }


/-- Claim C1: the claim says that at the phone, company and message steps the token
`skip` stores a skip-this-field value and advances.  The code disagrees: the
cancellation check at widget.js:221 matches `skip` before any step dispatch,
so `skip` at the phone step (name and email already collected) cancels the
whole session, clears all fields, and emits the cancellation acknowledgment;
the step-local `skip` branches at widget.js:299/311/322 are unreachable even
though the code's own prompts direct the user to type `skip` there. -/
theorem C1_skip_at_phone_step_cancels_session :
    handleLeadInput phoneStepState "skip" ChatOutcome.err LeadOutcome.err =
      ({ phoneStepState with leadCollectionMode := false, leadData := {} },
        [WAction.botMessage cancelMsg]) := by decide

/-- Claim C3: the claim says the Scenario A input sequence
`["Jane Doe", "jane@x.com", "skip", "Acme", "skip"]` on a fresh session
yields exactly one lead-submission request.  The code disagrees: the third
input `skip` hits the cancellation check at widget.js:221 and cancels the
session, so the run issues no `POST /api/lead` request at all and ends with
the session inactive. -/
theorem C3_scenarioA_produces_no_submission :
    (runInputs freshActive scenarioAInputs chatOkPlain leadOkPlain).2.filter isLeadRequest = [] ∧
    (runInputs freshActive scenarioAInputs chatOkPlain leadOkPlain).1.leadCollectionMode = false := by
  exact ⟨by decide, by decide⟩

/-- Counterexample to claim C2: a `success:false` submission response at the message
step leaves `leadCollectionMode` set and every collected field (including the
just-stored message) in place — the session is not returned to Inactive and
the fields are not cleared, contrary to the claim. -/
theorem C2_counterexample_failure_keeps_session :
    (handleLeadInput msgStepState "hello" ChatOutcome.err leadRejected).1.leadCollectionMode = true ∧
    (handleLeadInput msgStepState "hello" ChatOutcome.err leadRejected).1.leadData =
      { name := some "Jane Doe", email := some "jane@x.com", phone := some "555", company := some "Acme", message := some "hello" } := by
  exact ⟨by decide, by decide⟩

/-- Counterexample to claim C5: the input `cancel` at the email step fails the email
pattern, yet the controller does not re-prompt and stay at the email step —
the cancellation check at widget.js:221 fires first, deactivating the session
and clearing the collected name. -/
theorem C5_counterexample_cancel_at_email_step :
    isValidEmail "cancel" = false ∧
    handleLeadInput emailStepState "cancel" ChatOutcome.err LeadOutcome.err =
      ({ emailStepState with leadCollectionMode := false, leadData := {} },
        [WAction.botMessage cancelMsg]) := by
  exact ⟨by decide, by decide⟩

/-- Counterexample to claim C6: the input `cancel` while the name is unset contains
the question indicator `can`, yet the controller does not forward it to the
chat endpoint — the cancellation check at widget.js:221 fires first and emits
the cancellation acknowledgment instead (no `POST /api/chat` action). -/
theorem C6_counterexample_cancel_contains_can :
    containsQuestionIndicator (normLower "cancel") = true ∧
    truthy freshActive.leadData.name = false ∧
    handleLeadInput freshActive "cancel" ChatOutcome.err LeadOutcome.err =
      ({ freshActive with leadCollectionMode := false, leadData := {} },
        [WAction.botMessage cancelMsg]) := by
  exact ⟨by decide, by decide, by decide⟩

/-- Counterexample to claim C7: two reachable states violate it.  First,
after a rejected submission the session is still active with
`message = "hello"` captured, and the next input is handled without any
session reset and overwrites the captured message with `"goodbye"`.  Second,
a question-abort whose forward re-triggers lead collection with an extracted
email yields an active session in which the email is captured while the name
is not — the email precedes the name, against the claimed fixed collection
order. -/
theorem C7_counterexample_message_overwritten :
    (failedSubmitState.leadCollectionMode = true ∧
     failedSubmitState.leadData.message = some "hello" ∧
     (handleLeadInput failedSubmitState "goodbye" ChatOutcome.err leadRejected).1.leadCollectionMode = true ∧
     (handleLeadInput failedSubmitState "goodbye" ChatOutcome.err leadRejected).1.leadData.message = some "goodbye") ∧
    ((handleLeadInput freshActive "What are your hours?" chatTriggerPrefill LeadOutcome.err).1.leadCollectionMode = true ∧
     (handleLeadInput freshActive "What are your hours?" chatTriggerPrefill LeadOutcome.err).1.leadData.email = some "jane@x.com" ∧
     (handleLeadInput freshActive "What are your hours?" chatTriggerPrefill LeadOutcome.err).1.leadData.name = none) := by
  exact ⟨⟨by decide, by decide, by decide, by decide⟩, ⟨by decide, by decide, by decide⟩⟩

/-- Counterexample to claim C8: when the question-abort forward returns
`success:false`, the controller emits no bot message at all — the only
action is the `POST /api/chat` request — contrary to the claim that every
failure (in particular a non-success response during the aborted-question
forward) produces a user-visible generic error message. -/
theorem C8_counterexample_silent_abort_failure :
    handleLeadInput freshActive "What are your hours?" chatRejected LeadOutcome.err =
      (abortedState freshActive "What are your hours?",
        [WAction.chatRequest "What are your hours?" [ChatMsg.mk Role.user "What are your hours?"]]) := by
  decide

/-- Claim C4: for every input whose trimmed lower-casing is one of the
cancellation tokens (`cancel`, `nevermind`, `skip`, `back`), handling the
input while the session is active at the name or email step deactivates the
session, clears all collected fields, and emits exactly one cancellation
acknowledgment message. -/
theorem C4_cancel_token_cancels_and_clears (st : WidgetState) (m : String)
    (chat : ChatOutcome) (lead : LeadOutcome)
    (hmode : st.leadCollectionMode = true)
    (htok : isCancelToken (normLower m) = true)
    (hstep : truthy st.leadData.name = false ∨ truthy st.leadData.email = false) :
    handleLeadInput st m chat lead =
      ({ st with leadCollectionMode := false, leadData := {} },
        [WAction.botMessage cancelMsg]) := by
  simp [handleLeadInput, htok]

/-- Witness for C4 at the input `cancel` on a fresh session at the name
step. -/
theorem C4_cancel_token_cancels_and_clears_witness :
    freshActive.leadCollectionMode = true ∧
    isCancelToken (normLower "cancel") = true ∧
    truthy freshActive.leadData.name = false ∧
    handleLeadInput freshActive "cancel" ChatOutcome.err LeadOutcome.err =
      ({ freshActive with leadCollectionMode := false, leadData := {} },
        [WAction.botMessage cancelMsg]) :=
  ⟨rfl, by decide, by decide,
    C4_cancel_token_cancels_and_clears freshActive "cancel" ChatOutcome.err LeadOutcome.err
      rfl (by decide) (Or.inl (by decide))⟩

/-- Claim C2, amended: when the lead-submission request fails (a
`success:false` response or a transport error), the controller emits the
matching generic failure message but leaves the session active with every
collected field — including the just-stored message — intact; it does not
return the session to Inactive and does not clear the fields. -/
theorem C2_amended_failed_submission_keeps_session (st : WidgetState) (m : String)
    (chat : ChatOutcome) (lead : LeadOutcome)
    (htok : isCancelToken (normLower m) = false)
    (hname : truthy st.leadData.name = true)
    (hemail : truthy st.leadData.email = true)
    (hphone : (!truthy st.leadData.phone && st.leadData.phone != some "skipped") = false)
    (hcompany : (!truthy st.leadData.company && st.leadData.company != some "skipped") = false)
    (hfail : leadFails lead = true) :
    handleLeadInput st m chat lead =
      ({ st with leadData := { st.leadData with message := some m } },
        [WAction.leadRequest (leadPayload { st with leadData := { st.leadData with message := some m } }),
         WAction.botMessage (leadFailMsg lead)]) := by
  have hskip : (normLower m == "skip") = false := by
    cases hh : normLower m == "skip"
    · rfl
    · exfalso
      rw [isCancelToken] at htok
      simp [hh] at htok
  cases lead with
  | err =>
      simp [handleLeadInput, submitLead, leadFailMsg, htok, hname, hemail, hphone, hcompany, hskip]
  | ok r =>
      have hrs : r.success = false := by simpa [leadFails] using hfail
      simp [handleLeadInput, submitLead, leadFailMsg, htok, hname, hemail, hphone, hcompany, hskip, hrs]

/-- Witness for the amended C2 at the message step with a `success:false`
response. -/
theorem C2_amended_failed_submission_keeps_session_witness :
    isCancelToken (normLower "hello") = false ∧
    truthy msgStepState.leadData.name = true ∧
    leadFails leadRejected = true ∧
    handleLeadInput msgStepState "hello" ChatOutcome.err leadRejected =
      ({ msgStepState with leadData := { msgStepState.leadData with message := some "hello" } },
        [WAction.leadRequest (leadPayload { msgStepState with leadData := { msgStepState.leadData with message := some "hello" } }),
         WAction.botMessage (leadFailMsg leadRejected)]) :=
  ⟨by decide, by decide, by decide,
    C2_amended_failed_submission_keeps_session msgStepState "hello" ChatOutcome.err leadRejected
      (by decide) (by decide) (by decide) (by decide) (by decide) (by decide)⟩

/-- Claim C5, amended: at the email step, for every input whose trimmed
lower-casing is not a cancellation token, an input failing the email pattern
makes the controller emit the re-prompt, stay at the email step and store
nothing, while an input passing the pattern is stored verbatim as the email
and the controller advances to the phone step; an input equal to a
cancellation token (e.g. `cancel` or `skip`) instead cancels the whole
session even though it also fails the pattern. -/
theorem C5_amended_email_step_validation (st : WidgetState) (m : String)
    (chat : ChatOutcome) (lead : LeadOutcome)
    (htok : isCancelToken (normLower m) = false)
    (hname : truthy st.leadData.name = true)
    (hemail : truthy st.leadData.email = false) :
    (isValidEmail m = false →
      handleLeadInput st m chat lead = (st, [WAction.botMessage emailInvalidMsg])) ∧
    (isValidEmail m = true →
      handleLeadInput st m chat lead =
        ({ st with leadData := { st.leadData with email := some m } },
          [WAction.botMessage phonePrompt])) := by
  constructor
  · intro hv
    simp [handleLeadInput, htok, hname, hemail, hv]
  · intro hv
    simp [handleLeadInput, htok, hname, hemail, hv]

/-- Witness for the amended C5 at the malformed email `not-an-email`. -/
theorem C5_amended_email_step_validation_witness :
    isCancelToken (normLower "not-an-email") = false ∧
    isValidEmail "not-an-email" = false ∧
    handleLeadInput emailStepState "not-an-email" ChatOutcome.err LeadOutcome.err =
      (emailStepState, [WAction.botMessage emailInvalidMsg]) :=
  ⟨by decide, by decide,
    (C5_amended_email_step_validation emailStepState "not-an-email" ChatOutcome.err LeadOutcome.err
      (by decide) (by decide) (by decide)).1 (by decide)⟩

/-- Claim C6, amended: while the name is unset, an input containing a
question indicator whose trimmed lower-casing is not a cancellation token is
forwarded to the chat endpoint as an ordinary chat turn (the first emitted
action is the `POST /api/chat` request carrying the message), and unless the
response re-triggers lead collection the session ends deactivated with all
fields cleared; the input `cancel` is the exception — it contains the
indicator `can` but is caught by the cancellation check and never
forwarded. -/
theorem C6_amended_question_abort_forwards (st : WidgetState) (m : String)
    (chat : ChatOutcome) (lead : LeadOutcome)
    (htok : isCancelToken (normLower m) = false)
    (hq : containsQuestionIndicator (normLower m) = true)
    (hname : truthy st.leadData.name = false) :
    (∃ rest, (handleLeadInput st m chat lead).2 =
        WAction.chatRequest m (st.conversationHistory ++ [ChatMsg.mk Role.user m]) :: rest) ∧
    (chatTriggers chat = false →
      (handleLeadInput st m chat lead).1.leadCollectionMode = false ∧
      (handleLeadInput st m chat lead).1.leadData = {}) := by
  cases chat with
  | err =>
      exact ⟨⟨[WAction.botMessage genericErrMsg], by simp [handleLeadInput, htok, hq, hname]⟩,
        fun _ => by simp [handleLeadInput, htok, hq, hname]⟩
  | ok r =>
      cases hs : r.success with
      | false =>
          exact ⟨⟨[], by simp [handleLeadInput, htok, hq, hname, hs]⟩,
            fun _ => by simp [handleLeadInput, htok, hq, hname, hs]⟩
      | true =>
          cases ht : r.trigger_lead_collection with
          | false =>
              exact ⟨⟨[WAction.botMessage r.response], by simp [handleLeadInput, htok, hq, hname, hs, ht]⟩,
                fun _ => by simp [handleLeadInput, htok, hq, hname, hs, ht]⟩
          | true =>
              refine ⟨⟨[], by simp [handleLeadInput, htok, hq, hname, hs, ht]⟩, fun hc => ?_⟩
              exfalso
              rw [chatTriggers] at hc
              simp [hs, ht] at hc

/-- Witness for the amended C6 at the question `What are your hours?` on a
fresh session with a transport error on the forward. -/
theorem C6_amended_question_abort_forwards_witness :
    containsQuestionIndicator (normLower "What are your hours?") = true ∧
    (∃ rest, (handleLeadInput freshActive "What are your hours?" ChatOutcome.err LeadOutcome.err).2 =
        WAction.chatRequest "What are your hours?"
          (freshActive.conversationHistory ++ [ChatMsg.mk Role.user "What are your hours?"]) :: rest) ∧
    (handleLeadInput freshActive "What are your hours?" ChatOutcome.err LeadOutcome.err).1.leadCollectionMode = false ∧
    (handleLeadInput freshActive "What are your hours?" ChatOutcome.err LeadOutcome.err).1.leadData = {} :=
  ⟨by decide,
    (C6_amended_question_abort_forwards freshActive "What are your hours?" ChatOutcome.err LeadOutcome.err
      (by decide) (by decide) (by decide)).1,
    ((C6_amended_question_abort_forwards freshActive "What are your hours?" ChatOutcome.err LeadOutcome.err
      (by decide) (by decide) (by decide)).2 (by decide)).1,
    ((C6_amended_question_abort_forwards freshActive "What are your hours?" ChatOutcome.err LeadOutcome.err
      (by decide) (by decide) (by decide)).2 (by decide)).2⟩

/-- Claim C8, amended: on the question-abort path the session is already
deactivated and cleared before the forward is issued, so both failure modes
of the forward leave the session in the determinate Inactive state; a
transport error additionally emits the generic error message, but a
`success:false` response emits no message at all — the forward's only
observable action is the `POST /api/chat` request.  Submission failures (the
other failure kind the claim covers) do not return the session to Inactive;
see the amended C2. -/
theorem C8_amended_abort_forward_failures (st : WidgetState) (m : String) (lead : LeadOutcome)
    (htok : isCancelToken (normLower m) = false)
    (hq : containsQuestionIndicator (normLower m) = true)
    (hname : truthy st.leadData.name = false) :
    (handleLeadInput st m ChatOutcome.err lead =
      (abortedState st m,
        [WAction.chatRequest m (abortedState st m).conversationHistory,
         WAction.botMessage genericErrMsg])) ∧
    (∀ r : ChatResp, r.success = false →
      handleLeadInput st m (ChatOutcome.ok r) lead =
        (abortedState st m,
          [WAction.chatRequest m (abortedState st m).conversationHistory])) := by
  constructor
  · simp [handleLeadInput, abortedState, htok, hq, hname]
  · intro r hr
    simp [handleLeadInput, abortedState, htok, hq, hname, hr]

/-- Witness for the amended C8: transport error during the forward of
`What are your hours?` from a fresh session. -/
theorem C8_amended_abort_forward_failures_witness :
    isCancelToken (normLower "What are your hours?") = false ∧
    containsQuestionIndicator (normLower "What are your hours?") = true ∧
    truthy freshActive.leadData.name = false ∧
    handleLeadInput freshActive "What are your hours?" ChatOutcome.err LeadOutcome.err =
      (abortedState freshActive "What are your hours?",
        [WAction.chatRequest "What are your hours?"
           (abortedState freshActive "What are your hours?").conversationHistory,
         WAction.botMessage genericErrMsg]) :=
  ⟨by decide, by decide, by decide,
    (C8_amended_abort_forward_failures freshActive "What are your hours?" LeadOutcome.err
      (by decide) (by decide) (by decide)).1⟩

/-- Claim C9: when the triggering chat turn extracted a (non-empty) email
address, the session is activated with the email pre-filled, and handling the
first collected input — the name — skips the email step entirely: the name is
stored, the pre-filled email is kept, and the next prompt asks for the phone
number. -/
theorem C9_prefilled_email_skips_email_step (st : WidgetState) (e m : String)
    (chat : ChatOutcome) (lead : LeadOutcome)
    (he : truthy (some e) = true)
    (htok : isCancelToken (normLower m) = false)
    (hq : containsQuestionIndicator (normLower m) = false) :
    (startLeadCollection st (some e)).leadCollectionMode = true ∧
    (startLeadCollection st (some e)).leadData.email = some e ∧
    handleLeadInput (startLeadCollection st (some e)) m chat lead =
      ({ st with leadCollectionMode := true, leadData := { name := some m, email := some e } },
        [WAction.botMessage phonePromptPrefilled]) := by
  refine ⟨rfl, rfl, ?_⟩
  simp [handleLeadInput, startLeadCollection, htok, hq, truthy] at he ⊢
  simp [he]

/-- Witness for C9 with the pre-filled email `jane@x.com` and the name
`Jane Doe`. -/
theorem C9_prefilled_email_skips_email_step_witness :
    truthy (some "jane@x.com") = true ∧
    isCancelToken (normLower "Jane Doe") = false ∧
    containsQuestionIndicator (normLower "Jane Doe") = false ∧
    ((startLeadCollection {} (some "jane@x.com")).leadCollectionMode = true ∧
     (startLeadCollection {} (some "jane@x.com")).leadData.email = some "jane@x.com" ∧
     handleLeadInput (startLeadCollection {} (some "jane@x.com")) "Jane Doe" ChatOutcome.err LeadOutcome.err =
       ({ ({} : WidgetState) with
            leadCollectionMode := true
            leadData := { name := some "Jane Doe", email := some "jane@x.com" } },
         [WAction.botMessage phonePromptPrefilled])) :=
  ⟨by decide, by decide, by decide,
    C9_prefilled_email_skips_email_step {} "jane@x.com" "Jane Doe" ChatOutcome.err LeadOutcome.err
      (by decide) (by decide) (by decide)⟩

/-- Claim C10: when an input sent during active lead collection takes the
question-abort path, the user's message is pushed to `conversationHistory`
once by `sendMessage` (widget.js:162) and a second time inside the abort
branch (widget.js:238), so the resulting history extends the old one with
two consecutive copies of the message (followed only by the bot response,
when one arrives); any later snippet built from the history shows the
message duplicated. -/
theorem C10_question_abort_duplicates_history (st : WidgetState) (raw : String)
    (chat : ChatOutcome) (lead : LeadOutcome)
    (hmode : st.leadCollectionMode = true)
    (hne : (jsTrim raw == "") = false)
    (htok : isCancelToken (normLower (jsTrim raw)) = false)
    (hq : containsQuestionIndicator (normLower (jsTrim raw)) = true)
    (hname : truthy st.leadData.name = false) :
    ∃ t, (sendMessage st raw chat lead).1.conversationHistory =
      st.conversationHistory ++
        [ChatMsg.mk Role.user (jsTrim raw), ChatMsg.mk Role.user (jsTrim raw)] ++ t := by
  cases chat with
  | err =>
      exact ⟨[], by simp [sendMessage, handleLeadInput, hmode, hne, htok, hq, hname]⟩
  | ok r =>
      cases hs : r.success with
      | false =>
          exact ⟨[], by simp [sendMessage, handleLeadInput, hmode, hne, htok, hq, hname, hs]⟩
      | true =>
          cases ht : r.trigger_lead_collection with
          | false =>
              exact ⟨[ChatMsg.mk Role.bot r.response],
                by simp [sendMessage, handleLeadInput, hmode, hne, htok, hq, hname, hs, ht]⟩
          | true =>
              exact ⟨[], by simp [sendMessage, handleLeadInput, startLeadCollection,
                hmode, hne, htok, hq, hname, hs, ht]⟩

/-- Witness for C10: the question `What are your hours?` on a fresh active
session with a transport error on the forward. -/
theorem C10_question_abort_duplicates_history_witness :
    freshActive.leadCollectionMode = true ∧
    (jsTrim "What are your hours?" == "") = false ∧
    containsQuestionIndicator (normLower (jsTrim "What are your hours?")) = true ∧
    (∃ t, (sendMessage freshActive "What are your hours?" ChatOutcome.err LeadOutcome.err).1.conversationHistory =
      freshActive.conversationHistory ++
        [ChatMsg.mk Role.user (jsTrim "What are your hours?"),
         ChatMsg.mk Role.user (jsTrim "What are your hours?")] ++ t) :=
  ⟨rfl, by decide, by decide,
    C10_question_abort_duplicates_history freshActive "What are your hours?" ChatOutcome.err LeadOutcome.err
      rfl (by decide) (by decide) (by decide) (by decide)⟩

/-- An empty `leadData` trivially satisfies the field-order invariant. -/
theorem orderedFields_empty : orderedFields ({} : LeadData) :=
  ⟨fun h => by simp [truthy] at h, fun h => by simp [capturedPhone, truthy] at h,
   fun h => by simp [capturedCompany, truthy] at h, fun h => absurd rfl h⟩


/-- An empty `leadData` is a reset state. -/
theorem resetLike_empty : resetLike ({} : LeadData) := ⟨rfl, rfl, rfl, rfl⟩

/-- Claim C7, amended: for every input handled in any state, the state-shape
invariant is preserved — captured fields form a prefix of the fixed order
name → email → phone → company → message (so at most one field is in
progress), or the session was just reset/re-activated and holds at most a
pre-filled email while awaiting the name — and a captured name, email, phone
or company is never changed except when the result is such a reset state
(cancellation, question-abort — whose re-trigger may leave a pre-filled
email — or successful submission).  Two exceptions are forced by the code:
the message field is not preserved, because a failed submission leaves the
session active with the message stored and the next input overwrites it; and
a re-trigger with an extracted email starts the new session with the email
captured before the name. -/
theorem C7_amended_field_order_and_preservation (st : WidgetState) (m : String)
    (chat : ChatOutcome) (lead : LeadOutcome) :
    (leadInvariant st.leadData → leadInvariant (handleLeadInput st m chat lead).1.leadData) ∧
    (truthy st.leadData.name = true →
      (handleLeadInput st m chat lead).1.leadData.name = st.leadData.name ∨
      resetLike (handleLeadInput st m chat lead).1.leadData) ∧
    (truthy st.leadData.email = true →
      (handleLeadInput st m chat lead).1.leadData.email = st.leadData.email ∨
      resetLike (handleLeadInput st m chat lead).1.leadData) ∧
    (capturedPhone st.leadData = true →
      (handleLeadInput st m chat lead).1.leadData.phone = st.leadData.phone ∨
      resetLike (handleLeadInput st m chat lead).1.leadData) ∧
    (capturedCompany st.leadData = true →
      (handleLeadInput st m chat lead).1.leadData.company = st.leadData.company ∨
      resetLike (handleLeadInput st m chat lead).1.leadData) := by
  cases h1 : isCancelToken (normLower m) with
  | true =>
    have he : (handleLeadInput st m chat lead).1.leadData = {} := by
      simp [handleLeadInput, h1]
    rw [he]
    exact ⟨fun _ => Or.inl orderedFields_empty, fun _ => Or.inr resetLike_empty,
      fun _ => Or.inr resetLike_empty, fun _ => Or.inr resetLike_empty,
      fun _ => Or.inr resetLike_empty⟩
  | false =>
    cases hn : truthy st.leadData.name with
    | false =>
      cases hqi : containsQuestionIndicator (normLower m) with
      | true =>
        have he : ∃ e, (handleLeadInput st m chat lead).1.leadData = { email := e } := by
          cases chat with
          | err => exact ⟨none, by simp [handleLeadInput, h1, hn, hqi]⟩
          | ok r =>
            cases hs : r.success with
            | false => exact ⟨none, by simp [handleLeadInput, h1, hn, hqi, hs]⟩
            | true =>
              cases ht : r.trigger_lead_collection with
              | false => exact ⟨none, by simp [handleLeadInput, h1, hn, hqi, hs, ht]⟩
              | true =>
                exact ⟨r.extracted_email,
                  by simp [handleLeadInput, startLeadCollection, h1, hn, hqi, hs, ht]⟩
        obtain ⟨e, he⟩ := he
        rw [he]
        refine ⟨fun _ => Or.inr ?_, fun _ => Or.inr ?_, fun _ => Or.inr ?_,
          fun _ => Or.inr ?_, fun _ => Or.inr ?_⟩
        · exact ⟨rfl, by simp [capturedPhone, truthy], by simp [capturedCompany, truthy], rfl⟩
        all_goals exact ⟨rfl, rfl, rfl, rfl⟩
      | false =>
        have he : (handleLeadInput st m chat lead).1.leadData =
            { st.leadData with name := some m } := by
          cases hpe : truthy st.leadData.email <;> simp [handleLeadInput, h1, hn, hqi, hpe]
        rw [he]
        refine ⟨fun hinv => ?_, fun h => absurd h (by simp [hn]), fun _ => Or.inl rfl,
          fun _ => Or.inl rfl, fun _ => Or.inl rfl⟩
        have hfacts : capturedPhone st.leadData = false ∧ capturedCompany st.leadData = false ∧
            st.leadData.message = none := by
          cases hinv with
          | inl hod =>
            obtain ⟨o1, o2, o3, o4⟩ := hod
            have hcp : capturedPhone st.leadData = false := by
              cases hcp : capturedPhone st.leadData with
              | false => rfl
              | true => exact absurd (o1 (o2 hcp)) (by simp [hn])
            have hcc : capturedCompany st.leadData = false := by
              cases hcc : capturedCompany st.leadData with
              | false => rfl
              | true => exact absurd (o3 hcc) (by simp [hcp])
            have hm0 : st.leadData.message = none := by
              cases hmm : st.leadData.message with
              | none => rfl
              | some v => exact absurd (o4 (by simp [hmm])) (by simp [hcc])
            exact ⟨hcp, hcc, hm0⟩
          | inr haw => exact ⟨haw.2.1, haw.2.2.1, haw.2.2.2⟩
        cases hm : truthy (some m) with
        | true =>
          refine Or.inl ⟨fun _ => hm, fun hc => ?_, fun hc => ?_, fun hc => ?_⟩
          · exact absurd (show capturedPhone st.leadData = true from hc) (by simp [hfacts.1])
          · exact absurd (show capturedCompany st.leadData = true from hc) (by simp [hfacts.2.1])
          · exact absurd (show st.leadData.message ≠ none from hc) (by simp [hfacts.2.2])
        | false =>
          exact Or.inr ⟨hm, hfacts.1, hfacts.2.1, hfacts.2.2⟩
    | true =>
      have hodof : leadInvariant st.leadData → orderedFields st.leadData := by
        intro hinv
        cases hinv with
        | inl hod => exact hod
        | inr haw => exact absurd hn (by simp [haw.1])
      cases hpe : truthy st.leadData.email with
      | false =>
        cases hv : isValidEmail m with
        | false =>
          have he : (handleLeadInput st m chat lead).1.leadData = st.leadData := by
            simp [handleLeadInput, h1, hn, hpe, hv]
          rw [he]
          exact ⟨fun hinv => hinv, fun _ => Or.inl rfl, fun _ => Or.inl rfl,
            fun _ => Or.inl rfl, fun _ => Or.inl rfl⟩
        | true =>
          have he : (handleLeadInput st m chat lead).1.leadData =
              { st.leadData with email := some m } := by
            simp [handleLeadInput, h1, hn, hpe, hv]
          rw [he]
          refine ⟨fun hinv => ?_, fun _ => Or.inl rfl, fun h => absurd h (by simp [hpe]),
            fun _ => Or.inl rfl, fun _ => Or.inl rfl⟩
          obtain ⟨o1, o2, o3, o4⟩ := hodof hinv
          refine Or.inl ⟨fun _ => hn, fun hc => absurd (o2 hc) (by simp [hpe]),
            fun hc => absurd (o2 (o3 hc)) (by simp [hpe]),
            fun hc => absurd (o2 (o3 (o4 hc))) (by simp [hpe])⟩
      | true =>
        cases hpp : (!truthy st.leadData.phone && st.leadData.phone != some "skipped") with
        | true =>
          have hcap : capturedPhone st.leadData = false := by
            rw [Bool.and_eq_true] at hpp
            obtain ⟨hp1, hp2⟩ := hpp
            rw [Bool.not_eq_true'] at hp1
            rw [bne_iff_ne] at hp2
            simp [capturedPhone, hp1, hp2]
          cases hskip : normLower m == "skip" with
          | true =>
            exfalso
            rw [isCancelToken] at h1
            simp [hskip] at h1
          | false =>
            have he : (handleLeadInput st m chat lead).1.leadData =
                { st.leadData with phone := some m } := by
              simp [handleLeadInput, h1, hn, hpe, hpp, hskip]
            rw [he]
            refine ⟨fun hinv => ?_, fun _ => Or.inl rfl, fun _ => Or.inl rfl,
              fun h => absurd h (by simp [hcap]), fun _ => Or.inl rfl⟩
            obtain ⟨o1, o2, o3, o4⟩ := hodof hinv
            refine Or.inl ⟨fun _ => hn, fun _ => hpe,
              fun hc => absurd (o3 hc) (by simp [hcap]),
              fun hc => absurd (o3 (o4 hc)) (by simp [hcap])⟩
        | false =>
          have hcap : capturedPhone st.leadData = true := by
            cases htp : truthy st.leadData.phone with
            | true => simp [capturedPhone, htp]
            | false =>
              rw [htp] at hpp
              simp only [Bool.not_false, Bool.true_and] at hpp
              rw [bne_eq_false_iff_eq] at hpp
              simp [capturedPhone, htp, hpp]
          cases hcc : (!truthy st.leadData.company && st.leadData.company != some "skipped") with
          | true =>
            have hccap : capturedCompany st.leadData = false := by
              rw [Bool.and_eq_true] at hcc
              obtain ⟨hc1, hc2⟩ := hcc
              rw [Bool.not_eq_true'] at hc1
              rw [bne_iff_ne] at hc2
              simp [capturedCompany, hc1, hc2]
            cases hskip : normLower m == "skip" with
            | true =>
              exfalso
              rw [isCancelToken] at h1
              simp [hskip] at h1
            | false =>
              have he : (handleLeadInput st m chat lead).1.leadData =
                  { st.leadData with company := some m } := by
                simp [handleLeadInput, h1, hn, hpe, hpp, hcc, hskip]
              rw [he]
              refine ⟨fun hinv => ?_, fun _ => Or.inl rfl, fun _ => Or.inl rfl,
                fun _ => Or.inl rfl, fun h => absurd h (by simp [hccap])⟩
              obtain ⟨o1, o2, o3, o4⟩ := hodof hinv
              refine Or.inl ⟨fun _ => hn, fun _ => hpe, fun _ => hcap,
                fun hc => absurd (o4 hc) (by simp [hccap])⟩
          | false =>
            have hccap : capturedCompany st.leadData = true := by
              cases htc : truthy st.leadData.company with
              | true => simp [capturedCompany, htc]
              | false =>
                rw [htc] at hcc
                simp only [Bool.not_false, Bool.true_and] at hcc
                rw [bne_eq_false_iff_eq] at hcc
                simp [capturedCompany, htc, hcc]
            have hskip : (normLower m == "skip") = false := by
              cases hh : normLower m == "skip" with
              | false => rfl
              | true =>
                exfalso
                rw [isCancelToken] at h1
                simp [hh] at h1
            cases lead with
            | err =>
              have he : (handleLeadInput st m chat LeadOutcome.err).1.leadData =
                  { st.leadData with message := some m } := by
                simp [handleLeadInput, submitLead, h1, hn, hpe, hpp, hcc, hskip]
              rw [he]
              refine ⟨fun _ => ?_, fun _ => Or.inl rfl, fun _ => Or.inl rfl,
                fun _ => Or.inl rfl, fun _ => Or.inl rfl⟩
              exact Or.inl ⟨fun _ => hn, fun _ => hpe, fun _ => hcap, fun _ => hccap⟩
            | ok r =>
              cases hs : r.success with
              | true =>
                have he : (handleLeadInput st m chat (LeadOutcome.ok r)).1.leadData = {} := by
                  simp [handleLeadInput, submitLead, h1, hn, hpe, hpp, hcc, hskip, hs]
                rw [he]
                exact ⟨fun _ => Or.inl orderedFields_empty, fun _ => Or.inr resetLike_empty,
                  fun _ => Or.inr resetLike_empty, fun _ => Or.inr resetLike_empty,
                  fun _ => Or.inr resetLike_empty⟩
              | false =>
                have he : (handleLeadInput st m chat (LeadOutcome.ok r)).1.leadData =
                    { st.leadData with message := some m } := by
                  simp [handleLeadInput, submitLead, h1, hn, hpe, hpp, hcc, hskip, hs]
                rw [he]
                refine ⟨fun _ => ?_, fun _ => Or.inl rfl, fun _ => Or.inl rfl,
                  fun _ => Or.inl rfl, fun _ => Or.inl rfl⟩
                exact Or.inl ⟨fun _ => hn, fun _ => hpe, fun _ => hcap, fun _ => hccap⟩

/-- Witness for the amended C7: the invariant-preservation implication
discharged on a fresh session receiving the name `Jane Doe`, and a
name-preservation clause discharged at the message step with a rejected
submission. -/
theorem C7_amended_field_order_and_preservation_witness :
    leadInvariant (handleLeadInput freshActive "Jane Doe" ChatOutcome.err LeadOutcome.err).1.leadData ∧
    ((handleLeadInput msgStepState "hello" ChatOutcome.err leadRejected).1.leadData.name =
        msgStepState.leadData.name ∨
      resetLike (handleLeadInput msgStepState "hello" ChatOutcome.err leadRejected).1.leadData) :=
  ⟨(C7_amended_field_order_and_preservation freshActive "Jane Doe" ChatOutcome.err LeadOutcome.err).1
      (Or.inl orderedFields_empty),
   (C7_amended_field_order_and_preservation msgStepState "hello" ChatOutcome.err leadRejected).2.1 (by decide)⟩
